import Mathlib

/-!
Verification of the ranking-and-pagination core of `app.py` (Daily Papers HN).

The Python program fetches a list of paper records, ranks them by one of three
scoring methods ("hot", "new", "rising"), paginates the ranked list (30 per
page) and renders each page as an HTML fragment.  This file gives a shallow
embedding of that core:

* time instants are modelled as rational numbers measured in **hours**, so the
  Python expression `time_diff.total_seconds() / 3600` becomes plain
  subtraction of instants;
* floating point arithmetic is modelled by exact arithmetic (`ℝ` for the hot
  score, whose formula contains the exponent `1.5`; `ℚ` for the rising score,
  whose formula is rational);
* the external `datetime.fromisoformat` parser is modelled by the field
  `parsedTime` of a record: `some t` when parsing the `publishedAt` string
  succeeds and yields the instant `t`, `none` when it raises `ValueError`;
* the external HTTP fetch is modelled by an `Option (List Paper)` argument
  (`none` models `requests.RequestException` / a non-2xx status);
* `print` diagnostics are modelled by an explicit list of emitted messages;
* Python's `sorted(key := k, reverse := True)` is a stable descending sort;
  it is modelled by `List.insertionSort` with the relation
  `fun a b => k b ≤ k a` (stable sorts by the same total preorder agree, and
  `insertionSort` is structurally recursive, hence evaluable).
-/

namespace DailyPapers

/-- A paper record as read by `app.py`.  Each field models one access path of
the Python dict: `title` ↦ `paper.get('title', …)`, `paperId` ↦
`paper.get('paper', {}).get('id', …)`, `authors` ↦ the list of
`author.get('name', …)`, `upvotes` ↦ `paper.get('paper', {}).get('upvotes', …)`,
`numComments` ↦ `paper.get('numComments', …)`, `publishedAt` ↦ the raw
`paper.get('publishedAt', …)` string.  `none` means the key is missing.
`parsedTime` models the result of `datetime.fromisoformat` applied to the
`publishedAt` string (an external library call): `none` when it raises
`ValueError`.  Instants are rationals measured in hours. -/
structure Paper where
  title : Option String
  paperId : Option String
  authors : List (Option String)
  upvotes : Option ℕ
  numComments : Option ℕ
  publishedAt : Option String
  parsedTime : Option ℚ
deriving DecidableEq

/-- Lines 22–27 (and identically 42–46 and 124–128) of `app.py`: the published
time used by the scoring and rendering code.  When the `publishedAt` key is
missing, the Python default is `datetime.now(timezone.utc).isoformat()`, which
parses back to `now`; when parsing the present string raises `ValueError`, the
handler substitutes `datetime.now(timezone.utc)`, i.e. `now`. -/
def effectivePublishedTime (now : ℚ) (p : Paper) : ℚ :=
  match p.publishedAt with
  | none => now
  | some _ =>
    match p.parsedTime with
    | some t => t
    | none => now

/-- Line 33 of `app.py` as a function of the vote count and the age in hours:
`score = upvotes / ((time_diff_hours + 2) ** 1.5)`. -/
noncomputable def hotValue (upvotes : ℕ) (timeDiffHours : ℚ) : ℝ :=
  (upvotes : ℝ) / ((timeDiffHours : ℝ) + 2) ^ (1.5 : ℝ)

/-- Line 53 of `app.py` as a function of the vote count and the age in hours:
`score = upvotes / (time_diff_hours + 1)`.  The value is rational, so it is
modelled exactly in `ℚ`. -/
def risingValue (upvotes : ℕ) (timeDiffHours : ℚ) : ℚ :=
  (upvotes : ℚ) / (timeDiffHours + 1)

/-- `PaperManager.calculate_score` (lines 16–34 of `app.py`). -/
noncomputable def calculate_score (now : ℚ) (p : Paper) : ℝ :=
  hotValue (p.upvotes.getD 0) (now - effectivePublishedTime now p)

/-- `PaperManager.calculate_rising_score` (lines 36–54 of `app.py`). -/
def calculate_rising_score (now : ℚ) (p : Paper) : ℚ :=
  risingValue (p.upvotes.getD 0) (now - effectivePublishedTime now p)

/-- The sort key of the "new" method (line 92 of `app.py`):
`x.get('publishedAt', '')`, the raw string. -/
def newKey (p : Paper) : String :=
  p.publishedAt.getD ""

/-- Python's `sorted(key := k, reverse := True)` puts `a` before `b` exactly
when it does not need to swap them, i.e. when `k b ≤ k a`; a stable sort with
this comparison reproduces it.  This is that comparison for the hot score. -/
def hotDescLE (now : ℚ) (a b : Paper) : Prop :=
  calculate_score now b ≤ calculate_score now a

noncomputable instance (now : ℚ) : DecidableRel (hotDescLE now) := fun a b =>
  inferInstanceAs (Decidable (calculate_score now b ≤ calculate_score now a))

/-- The descending comparison on the raw `publishedAt` strings used by the
"new" branch. -/
def newDescLE (a b : Paper) : Prop :=
  newKey b ≤ newKey a

/-- A decidability witness for the lexicographic order on strings that the
kernel can evaluate (the default instance goes through `String.ltb`, whose
well-founded recursion does not reduce). -/
def decLEString (a b : String) : Decidable (a ≤ b) :=
  decidable_of_iff (a.toList ≤ b.toList) String.le_iff_toList_le.symm

instance : DecidableRel newDescLE := fun a b =>
  decLEString (newKey b) (newKey a)

/-- The descending comparison on the rising score used by the "rising"
branch. -/
def risingDescLE (now : ℚ) (a b : Paper) : Prop :=
  calculate_rising_score now b ≤ calculate_rising_score now a

instance (now : ℚ) : DecidableRel (risingDescLE now) := fun a b =>
  inferInstanceAs (Decidable (calculate_rising_score now b ≤ calculate_rising_score now a))

/-- Sorting branch for `sort_method == "hot"` (lines 84–88):
`sorted(raw_papers, key = calculate_score, reverse = True)`, a stable
descending sort by the hot score. -/
noncomputable def sortByHot (now : ℚ) (l : List Paper) : List Paper :=
  l.insertionSort (hotDescLE now)

/-- Sorting branch for `sort_method == "new"` (lines 90–94):
`sorted(raw_papers, key = publishedAt string, reverse = True)`. -/
def sortByNew (l : List Paper) : List Paper :=
  l.insertionSort newDescLE

/-- Sorting branch for `sort_method == "rising"` (lines 96–100):
`sorted(raw_papers, key = calculate_rising_score, reverse = True)`. -/
def sortByRising (now : ℚ) (l : List Paper) : List Paper :=
  l.insertionSort (risingDescLE now)

/-- `PaperManager.sort_papers` (lines 82–106 of `app.py`): dispatch on the
method string; any unrecognized string falls into the `else` branch, which
sorts by the hot score. -/
noncomputable def sort_papers (method : String) (now : ℚ) (raw : List Paper) : List Paper :=
  if method = "hot" then sortByHot now raw
  else if method = "new" then sortByNew raw
  else if method = "rising" then sortByRising now raw
  else sortByHot now raw

/-- The mutable state of the `PaperManager` singleton (lines 7–14 of
`app.py`). -/
structure PaperManager where
  papers_per_page : ℕ
  current_page : ℕ
  papers : List Paper
  total_pages : ℕ
  sort_method : String
  raw_papers : List Paper
deriving DecidableEq

/-- `PaperManager.__init__` with the default `papers_per_page = 30`
(lines 8–14 and 173 of `app.py`). -/
def initManager : PaperManager :=
  { papers_per_page := 30
    current_page := 1
    papers := []
    total_pages := 1
    sort_method := "hot"
    raw_papers := [] }

/-- The total-page computation of line 72 of `app.py`:
`max((n + papers_per_page - 1) // papers_per_page, 1)`. -/
def totalPagesFor (papers_per_page n : ℕ) : ℕ :=
  max ((n + papers_per_page - 1) / papers_per_page) 1

/-- `PaperManager.fetch_papers` (lines 56–80 of `app.py`).  The argument
`response` models the external HTTP call: `none` models a
`requests.RequestException` or a non-2xx status (the `except` path returns
`False`); `some data` models a successful JSON response.  An empty `data` also
returns `False` (line 62–64), leaving the state untouched. -/
noncomputable def fetch_papers (now : ℚ) (response : Option (List Paper))
    (s : PaperManager) : PaperManager × Bool :=
  match response with
  | none => (s, false)
  | some data =>
    if data.isEmpty then (s, false)
    else
      let s1 := { s with raw_papers := data }
      let s2 := { s1 with papers := sort_papers s1.sort_method now s1.raw_papers }
      let s3 := { s2 with
        total_pages := totalPagesFor s2.papers_per_page s2.papers.length
        current_page := 1 }
      (s3, true)

/-- `PaperManager.format_paper` (lines 117–146 of `app.py`). -/
def format_paper (now : ℚ) (p : Paper) (rank : ℕ) : String :=
  let title := p.title.getD "No title"
  let paper_id := p.paperId.getD ""
  let url := "https://huggingface.co/papers/" ++ paper_id
  let joined := String.intercalate ", " (p.authors.map (fun a => a.getD ""))
  let authors := if joined = "" then "Unknown" else joined
  let upvotes := p.upvotes.getD 0
  let comments := p.numComments.getD 0
  let published_time := effectivePublishedTime now p
  let time_ago_days : ℤ := ⌊(now - published_time) / 24⌋
  let time_ago := if time_ago_days > 0 then s!"{time_ago_days} days ago" else "today"
  "\n        <tr class=\"athing\">\n            <td align=\"right\" valign=\"top\" class=\"title\"><span class=\"rank\">"
    ++ s!"{rank}" ++ ".</span></td>\n            <td valign=\"top\" class=\"title\">\n                <a href=\""
    ++ url ++ "\" class=\"storylink\" target=\"_blank\">" ++ title
    ++ "</a>\n            </td>\n        </tr>\n        <tr>\n            <td colspan=\"2\" class=\"subtext\">\n                <span class=\"score\">"
    ++ s!"{upvotes}" ++ " points</span> Authors: " ++ authors ++ " " ++ time_ago ++ " | "
    ++ s!"{comments}" ++ " comments\n            </td>\n        </tr>\n        <tr class=\"spacer\"><td colspan=\"2\"></td></tr>\n        "

/-- The placeholder emitted by `render_papers` for an empty page slice
(line 154 of `app.py`). -/
def noPapersHtml : String :=
  "<div class='no-papers'>No papers available for this page.</div>"

/-- The failure document of `initialize_app` (line 179 of `app.py`). -/
def fetchFailedHtml : String :=
  "<div class='no-papers'>Failed to fetch papers. Please try again later.</div>"

/-- The failure document of `change_sort_method` (line 189 of `app.py`). -/
def sortFailedHtml : String :=
  "<div class='no-papers'>Failed to sort papers. Please try again later.</div>"

/-- `PaperManager.render_papers` (lines 148–161 of `app.py`).  The slice
`papers[start : start + papers_per_page]` is `(papers.drop start).take
papers_per_page`. -/
def render_papers (now : ℚ) (s : PaperManager) : String :=
  let start := (s.current_page - 1) * s.papers_per_page
  let current_papers := (s.papers.drop start).take s.papers_per_page
  if current_papers.isEmpty then noPapersHtml
  else
    let papers_html := String.join
      (current_papers.enum.map (fun q => format_paper now q.2 (q.1 + start + 1)))
    "\n        <table border=\"0\" cellpadding=\"0\" cellspacing=\"0\" class=\"itemlist\">\n            "
      ++ papers_html ++ "\n        </table>\n        "

/-- `PaperManager.next_page` (lines 163–166 of `app.py`). -/
def next_page (now : ℚ) (s : PaperManager) : PaperManager × String :=
  let s1 := if s.current_page < s.total_pages then
    { s with current_page := s.current_page + 1 } else s
  (s1, render_papers now s1)

/-- `PaperManager.prev_page` (lines 168–171 of `app.py`). -/
def prev_page (now : ℚ) (s : PaperManager) : PaperManager × String :=
  let s1 := if s.current_page > 1 then
    { s with current_page := s.current_page - 1 } else s
  (s1, render_papers now s1)

/-- `PaperManager.set_sort_method` (lines 108–115 of `app.py`).  Returns the
new state, the Python return value (`True`, unconditionally), and the list of
`print` diagnostics emitted.  Note `sort_papers` runs with the already
normalized method. -/
noncomputable def set_sort_method (now : ℚ) (method : String)
    (s : PaperManager) : PaperManager × Bool × List String :=
  let m := if method ∈ (["hot", "new", "rising"] : List String) then method else "hot"
  let s1 := { s with sort_method := m }
  let s2 := { s1 with papers := sort_papers s1.sort_method now s1.raw_papers }
  let s3 := { s2 with current_page := 1 }
  (s3, true, [s!"Setting sort method to: {m}"])

/-- Python's `method.lower()`: ASCII case folding of the string, written over
the character list (extensionally `String.toLower`, whose byte-level
implementation does not evaluate in the kernel). -/
def pyLower (s : String) : String :=
  (s.toList.map Char.toLower).asString

/-- The controller callback `change_sort_method` (lines 181–189 of `app.py`).
Python's `method.lower()` is modelled by `pyLower`.  Returns the new
state, the HTML handed back to the UI, and the `print` diagnostics. -/
noncomputable def change_sort_method (now : ℚ) (method : String)
    (s : PaperManager) : PaperManager × String × List String :=
  let method_lower := pyLower method
  let r := set_sort_method now method_lower s
  if r.2.1 then
    (r.1, render_papers now r.1,
      s!"Changing sort method to: {method_lower}" :: r.2.2 ++ ["Sort method set successfully."])
  else
    (r.1, sortFailedHtml,
      s!"Changing sort method to: {method_lower}" :: r.2.2 ++ ["Failed to set sort method."])

/-- The controller callback `initialize_app` (lines 175–179 of `app.py`). -/
noncomputable def initialize_app (now : ℚ) (response : Option (List Paper))
    (s : PaperManager) : PaperManager × String :=
  let r := fetch_papers now response s
  if r.2 then (r.1, render_papers now r.1) else (r.1, fetchFailedHtml)

/-! ### Helper lemmas about the sort engine -/

theorem sort_papers_hot (now : ℚ) (l : List Paper) :
    sort_papers "hot" now l = sortByHot now l := by
  simp [sort_papers]

theorem sort_papers_new (now : ℚ) (l : List Paper) :
    sort_papers "new" now l = sortByNew l := by
  simp [sort_papers]

theorem sort_papers_rising (now : ℚ) (l : List Paper) :
    sort_papers "rising" now l = sortByRising now l := by
  simp [sort_papers]

theorem sort_papers_perm (method : String) (now : ℚ) (l : List Paper) :
    (sort_papers method now l).Perm l := by
  unfold sort_papers sortByHot sortByNew sortByRising
  split_ifs <;> exact List.perm_insertionSort _ _

theorem sort_papers_length (method : String) (now : ℚ) (l : List Paper) :
    (sort_papers method now l).length = l.length :=
  (sort_papers_perm method now l).length_eq

/-- C8: For every input collection (including the empty one) and every sort
method string (the unrecognized ones fall into the `else` branch), the output
of `sort_papers` is a permutation of the input, hence has the same length: no
item is dropped and none is duplicated. -/
theorem sort_is_permutation (method : String) (now : ℚ) (l : List Paper) :
    (sort_papers method now l).Perm l ∧
      (sort_papers method now l).length = l.length :=
  ⟨sort_papers_perm method now l, sort_papers_length method now l⟩

/-- C9: Sorting is stable under every method: if `a` precedes `b` in the input
and their sort keys are equal (hot score for "hot", raw `publishedAt` string
for "new", rising score for "rising"), then `a` still precedes `b` in the
sorted output. -/
theorem sort_is_stable (now : ℚ) (l : List Paper) (a b : Paper)
    (h : [a, b].Sublist l) :
    (calculate_score now a = calculate_score now b →
      [a, b].Sublist (sort_papers "hot" now l))
    ∧ (newKey a = newKey b → [a, b].Sublist (sort_papers "new" now l))
    ∧ (calculate_rising_score now a = calculate_rising_score now b →
      [a, b].Sublist (sort_papers "rising" now l)) := by
  refine ⟨fun hk => ?_, fun hk => ?_, fun hk => ?_⟩
  · rw [sort_papers_hot]
    exact List.pair_sublist_insertionSort (le_of_eq hk.symm) h
  · rw [sort_papers_new]
    exact List.pair_sublist_insertionSort (le_of_eq hk.symm) h
  · rw [sort_papers_rising]
    exact List.pair_sublist_insertionSort (le_of_eq hk.symm) h

/-- Two papers with the same `publishedAt` string and a third, later one, used
to witness stability of the "new" sort on a concrete input. -/
def paperA : Paper :=
  ⟨some "A", some "a", [], some 3, none, some "2024-05-01T00:00:00Z", some 0⟩

def paperB : Paper :=
  ⟨some "B", some "b", [], some 7, none, some "2024-05-01T00:00:00Z", some 0⟩

def paperC : Paper :=
  ⟨some "C", some "c", [], some 1, none, some "2024-05-02T00:00:00Z", some 24⟩

theorem sort_is_stable_witness :
    [paperA, paperB].Sublist (sort_papers "new" 0 [paperA, paperC, paperB]) :=
  (sort_is_stable 0 [paperA, paperC, paperB] paperA paperB
    (List.Sublist.cons₂ paperA (List.Sublist.cons paperC (List.Sublist.refl [paperB])))).2.1
    rfl

/-! ### Pagination -/

theorem totalPagesFor_eq_ceil (n : ℕ) :
    totalPagesFor 30 n = max (⌈(n : ℚ) / 30⌉₊) 1 := by
  have key : (n + 29) / 30 = ⌈(n : ℚ) / 30⌉₊ := by
    apply Nat.le_antisymm
    · have hc : (n : ℚ) ≤ 30 * (⌈(n : ℚ) / 30⌉₊ : ℚ) := by
        have := Nat.le_ceil ((n : ℚ) / 30)
        calc (n : ℚ) = ((n : ℚ) / 30) * 30 := by ring
        _ ≤ (⌈(n : ℚ) / 30⌉₊ : ℚ) * 30 := by
              exact mul_le_mul_of_nonneg_right this (by norm_num)
        _ = 30 * (⌈(n : ℚ) / 30⌉₊ : ℚ) := by ring
      have hn : n ≤ 30 * ⌈(n : ℚ) / 30⌉₊ := by exact_mod_cast hc
      have h30 : (0 : ℕ) < 30 := by norm_num
      have := (Nat.div_lt_iff_lt_mul h30).mpr
        (show n + 29 < (⌈(n : ℚ) / 30⌉₊ + 1) * 30 by omega)
      omega
    · apply Nat.ceil_le.mpr
      have h30 : (0 : ℕ) < 30 := by norm_num
      have hdm := Nat.div_add_mod (n + 29) 30
      have hlt := Nat.mod_lt (n + 29) h30
      have hn : n ≤ 30 * ((n + 29) / 30) := by omega
      have hq : (n : ℚ) ≤ 30 * (((n + 29) / 30 : ℕ) : ℚ) := by exact_mod_cast hn
      rw [div_le_iff₀ (by norm_num : (0 : ℚ) < 30)]
      linarith
  have h29 : n + 30 - 1 = n + 29 := by omega
  rw [totalPagesFor, h29, key]

/-- C3: with the page size fixed at 30, the code's total-page expression
`max((n + 30 - 1) // 30, 1)` equals `max(ceil(n / 30), 1)` and is 1 at `n = 0`;
`fetch_papers` stores exactly that value for the fetched collection;
`next_page` increments `current_page` only when `current_page < total_pages`
and otherwise leaves the state unchanged, `prev_page` decrements only when
`current_page > 1` and otherwise leaves the state unchanged, and repeated calls
at either boundary still leave the state unchanged (no error is possible: both
operations are total functions on the state). -/
theorem pagination_bounds_spec (now : ℚ) (s : PaperManager) (n : ℕ)
    (data : List Paper) (h30 : s.papers_per_page = 30) (hdata : data ≠ []) :
    totalPagesFor 30 n = max (⌈(n : ℚ) / 30⌉₊) 1
    ∧ totalPagesFor 30 0 = 1
    ∧ (fetch_papers now (some data) s).1.total_pages
        = max (⌈(data.length : ℚ) / 30⌉₊) 1
    ∧ (s.current_page < s.total_pages →
        (next_page now s).1.current_page = s.current_page + 1)
    ∧ (¬ s.current_page < s.total_pages → (next_page now s).1 = s)
    ∧ (1 < s.current_page →
        (prev_page now s).1.current_page = s.current_page - 1)
    ∧ (¬ 1 < s.current_page → (prev_page now s).1 = s)
    ∧ (¬ s.current_page < s.total_pages →
        (next_page now ((next_page now s).1)).1 = s)
    ∧ (¬ 1 < s.current_page →
        (prev_page now ((prev_page now s).1)).1 = s) := by
  have hfetch : (fetch_papers now (some data) s).1.total_pages
      = max (⌈(data.length : ℚ) / 30⌉₊) 1 := by
    have hne : data.isEmpty = false := by
      cases data with
      | nil => exact absurd rfl hdata
      | cons x xs => rfl
    simp only [fetch_papers, hne, Bool.false_eq_true, if_false, if_neg]
    rw [h30, sort_papers_length, ← totalPagesFor_eq_ceil]
  have hnext : s.current_page < s.total_pages →
      (next_page now s).1.current_page = s.current_page + 1 := by
    intro h
    simp [next_page, if_pos h]
  have hnextno : ¬ s.current_page < s.total_pages → (next_page now s).1 = s := by
    intro h
    simp [next_page, if_neg h]
  have hprev : 1 < s.current_page →
      (prev_page now s).1.current_page = s.current_page - 1 := by
    intro h
    simp [prev_page, if_pos h]
  have hprevno : ¬ 1 < s.current_page → (prev_page now s).1 = s := by
    intro h
    simp [prev_page, if_neg h]
  refine ⟨totalPagesFor_eq_ceil n, by simp [totalPagesFor], hfetch, hnext,
    hnextno, hprev, hprevno, fun h => ?_, fun h => ?_⟩
  · rw [hnextno h, hnextno h]
  · rw [hprevno h, hprevno h]

/-- A state on page 1 of 2 used to exercise the pagination transitions on a
concrete input. -/
def twoPageState : PaperManager :=
  { initManager with total_pages := 2 }

theorem pagination_bounds_spec_witness :
    (next_page 0 twoPageState).1.current_page = 2
    ∧ (prev_page 0 twoPageState).1 = twoPageState
    ∧ totalPagesFor 30 0 = 1 :=
  ⟨(pagination_bounds_spec 0 twoPageState 0 [paperA] rfl (by simp)).2.2.2.1
      (by decide),
    (pagination_bounds_spec 0 twoPageState 0 [paperA] rfl (by simp)).2.2.2.2.2.2.1
      (by decide),
    (pagination_bounds_spec 0 twoPageState 0 [paperA] rfl (by simp)).2.1⟩

/-! ### The hot score formula -/

theorem four_rpow_threeHalves : (4 : ℝ) ^ (1.5 : ℝ) = 8 := by
  have hhalf : (4 : ℝ) ^ ((1 : ℝ) / 2) = 2 := by
    rw [← Real.sqrt_eq_rpow, show (4 : ℝ) = 2 ^ 2 by norm_num,
      Real.sqrt_sq (by norm_num : (0 : ℝ) ≤ 2)]
  have hsplit : (1.5 : ℝ) = 1 + (1 : ℝ) / 2 := by norm_num
  rw [hsplit, Real.rpow_add (by norm_num : (0 : ℝ) < 4), Real.rpow_one, hhalf]
  norm_num

/-- C1: for a paper whose `publishedAt` string is present and parses to an
instant `h` hours before `now`, `calculate_score` returns
`votes / (h + 2) ** 1.5`; in particular with `votes = 10` and `h = 2` the
score is `10 / (2 + 2) ** 1.5 = 1.25`. -/
theorem hot_score_formula_spec (now h : ℚ) (p : Paper) (str : String)
    (hraw : p.publishedAt = some str) (hparse : p.parsedTime = some (now - h)) :
    calculate_score now p = (p.upvotes.getD 0 : ℝ) / ((h : ℝ) + 2) ^ (1.5 : ℝ)
    ∧ (p.upvotes = some 10 → h = 2 → calculate_score now p = 1.25) := by
  have hpub : effectivePublishedTime now p = now - h := by
    simp [effectivePublishedTime, hraw, hparse]
  have hdiff : now - (now - h) = h := sub_sub_cancel now h
  have hcs : calculate_score now p = hotValue (p.upvotes.getD 0) h := by
    rw [calculate_score, hpub, hdiff]
  refine ⟨hcs, fun h10 h2 => ?_⟩
  subst h2
  rw [hcs, h10]
  show ((10 : ℕ) : ℝ) / (((2 : ℚ) : ℝ) + 2) ^ (1.5 : ℝ) = 1.25
  have h4 : ((2 : ℚ) : ℝ) + 2 = 4 := by norm_num
  rw [h4, four_rpow_threeHalves]
  norm_num

/-- A paper published exactly two hours before the instant `now = 0`, with ten
upvotes. -/
def paperTwoHoursOld : Paper :=
  ⟨some "T", some "t", [], some 10, none, some "2024-05-01T00:00:00Z", some (-2)⟩

theorem hot_score_formula_spec_witness :
    calculate_score 0 paperTwoHoursOld = 1.25 :=
  (hot_score_formula_spec 0 2 paperTwoHoursOld "2024-05-01T00:00:00Z" rfl
    (by norm_num [paperTwoHoursOld])).2 rfl rfl

/-! ### The unparsable-timestamp policy -/

/-- A paper whose `publishedAt` string fails to parse (`parsedTime = none`)
and whose raw string `"!bad"` compares below every digit-initial ISO string. -/
def exBad : Paper :=
  ⟨some "Bad", some "x", [], some 0, none, some "!bad", none⟩

/-- C2 counterexample: under the "new" method the code sorts by the raw
`publishedAt` string, not the parse result, so a paper with an unparsable
string can land at the bottom: in this four-element collection the unparsable
paper is at rank 4 of 4, not at or near rank 1. -/
theorem unparsable_not_top_counterexample :
    exBad.parsedTime = none
    ∧ sort_papers "new" 0 [exBad, paperA, paperB, paperC]
        = [paperC, paperA, paperB, exBad] := by
  refine ⟨rfl, ?_⟩
  rw [sort_papers_new]
  decide

/-- C2 amended: when the `publishedAt` string is present but fails to parse,
the current instant is substituted as the published time, so the hot score
degrades to `votes / 2 ** 1.5` and the rising score to `votes`; no guarantee
about the item's rank follows (under "new" the raw string is the key). -/
theorem unparsable_time_fallback (now : ℚ) (p : Paper) (str : String)
    (hraw : p.publishedAt = some str) (hparse : p.parsedTime = none) :
    effectivePublishedTime now p = now
    ∧ calculate_score now p = (p.upvotes.getD 0 : ℝ) / (2 : ℝ) ^ (1.5 : ℝ)
    ∧ calculate_rising_score now p = (p.upvotes.getD 0 : ℚ) := by
  have hpub : effectivePublishedTime now p = now := by
    simp [effectivePublishedTime, hraw, hparse]
  refine ⟨hpub, ?_, ?_⟩
  · rw [calculate_score, hpub, sub_self, hotValue]
    norm_num
  · rw [calculate_rising_score, hpub, sub_self, risingValue]
    norm_num

theorem unparsable_time_fallback_witness :
    effectivePublishedTime 0 exBad = 0
    ∧ calculate_score 0 exBad = (exBad.upvotes.getD 0 : ℝ) / (2 : ℝ) ^ (1.5 : ℝ)
    ∧ calculate_rising_score 0 exBad = (exBad.upvotes.getD 0 : ℚ) :=
  unparsable_time_fallback 0 exBad "!bad" rfl rfl

/-! ### Sign and monotonicity of the scores -/

/-- C6 counterexample: with the valid vote count 0 the hot score is constantly
zero, so it does not strictly decrease as the age increases. -/
theorem hot_score_not_strict_counterexample :
    hotValue 0 1 = hotValue 0 0 ∧ ¬ hotValue 0 1 < hotValue 0 0 := by
  constructor
  · simp [hotValue]
  · simp [hotValue]

/-- C6 amended: for every vote count and every nonnegative age the hot and
rising scores are nonnegative (finiteness is inherent to the real-valued
model of float arithmetic), and for every **positive** vote count the hot
score strictly decreases as the age increases past −2 hours; with zero votes
it is constantly zero. -/
theorem scores_nonneg_hot_strict_anti (v : ℕ) (h h₁ h₂ : ℚ) :
    (0 ≤ h → 0 ≤ hotValue v h ∧ 0 ≤ risingValue v h)
    ∧ (1 ≤ v → -2 < h₁ → h₁ < h₂ → hotValue v h₂ < hotValue v h₁) := by
  constructor
  · intro hh
    have hhr : (0 : ℝ) ≤ (h : ℝ) := by exact_mod_cast hh
    constructor
    · exact div_nonneg (by positivity) (Real.rpow_nonneg (by linarith) _)
    · exact div_nonneg (by positivity) (by linarith)
  · intro hv h1 h2
    have hx : (0 : ℝ) < (h₁ : ℝ) + 2 := by
      have : ((-2 : ℚ) : ℝ) < (h₁ : ℝ) := by exact_mod_cast h1
      push_cast at this
      linarith
    have hxy : (h₁ : ℝ) + 2 < (h₂ : ℝ) + 2 := by
      have : (h₁ : ℝ) < (h₂ : ℝ) := by exact_mod_cast h2
      linarith
    have hp1 : (0 : ℝ) < ((h₁ : ℝ) + 2) ^ (1.5 : ℝ) := Real.rpow_pos_of_pos hx _
    have hlt : ((h₁ : ℝ) + 2) ^ (1.5 : ℝ) < ((h₂ : ℝ) + 2) ^ (1.5 : ℝ) :=
      Real.rpow_lt_rpow (le_of_lt hx) hxy (by norm_num)
    have hv1 : (1 : ℝ) ≤ (v : ℝ) := by exact_mod_cast hv
    unfold hotValue
    exact div_lt_div_of_pos_left (by linarith) hp1 hlt

theorem scores_nonneg_hot_strict_anti_witness :
    (0 ≤ hotValue 1 0 ∧ 0 ≤ risingValue 1 0) ∧ hotValue 1 1 < hotValue 1 0 :=
  ⟨(scores_nonneg_hot_strict_anti 1 0 0 1).1 le_rfl,
    (scores_nonneg_hot_strict_anti 1 0 0 1).2 le_rfl (by norm_num) (by norm_num)⟩

/-! ### Sort-method changes -/

theorem set_sort_method_eq (now : ℚ) (m : String) (s : PaperManager) (eff : String)
    (heff : eff = (if m ∈ (["hot", "new", "rising"] : List String) then m else "hot")) :
    set_sort_method now m s =
      ({ s with sort_method := eff,
                papers := sort_papers eff now s.raw_papers,
                current_page := 1 },
        true, [s!"Setting sort method to: {eff}"]) := by
  subst heff
  rfl

theorem change_sort_method_eq (now : ℚ) (m : String) (s : PaperManager) (eff : String)
    (heff : eff = (if pyLower m ∈ (["hot", "new", "rising"] : List String)
      then pyLower m else "hot")) :
    change_sort_method now m s =
      ({ s with sort_method := eff,
                papers := sort_papers eff now s.raw_papers,
                current_page := 1 },
        render_papers now
          { s with sort_method := eff,
                   papers := sort_papers eff now s.raw_papers,
                   current_page := 1 },
        [s!"Changing sort method to: {pyLower m}", s!"Setting sort method to: {eff}",
          "Sort method set successfully."]) := by
  subst heff
  rfl

/-- C4: for every method string, `change_sort_method` re-sorts the collection
by the normalized method, resets `current_page` to 1, returns `True` from
`set_sort_method` (no error reaches the caller, which therefore hands the
renderer's output to the UI), and when the lowercased string is unrecognized
the effective method is `"hot"` and the printed diagnostic names it. -/
theorem change_sort_resets_and_fallback (now : ℚ) (m : String) (s : PaperManager) :
    (change_sort_method now m s).1.current_page = 1
    ∧ (change_sort_method now m s).1.sort_method
        = (if pyLower m ∈ (["hot", "new", "rising"] : List String)
            then pyLower m else "hot")
    ∧ (change_sort_method now m s).1.papers
        = sort_papers (change_sort_method now m s).1.sort_method now s.raw_papers
    ∧ (set_sort_method now (pyLower m) s).2.1 = true
    ∧ (change_sort_method now m s).2.1
        = render_papers now (change_sort_method now m s).1
    ∧ (pyLower m ∉ (["hot", "new", "rising"] : List String) →
        (change_sort_method now m s).1.sort_method = "hot"
        ∧ "Setting sort method to: hot" ∈ (change_sort_method now m s).2.2) := by
  rw [change_sort_method_eq now m s _ rfl, set_sort_method_eq now (pyLower m) s _ rfl]
  refine ⟨rfl, rfl, rfl, rfl, rfl, fun hno => ?_⟩
  rw [if_neg hno]
  exact ⟨rfl, List.mem_cons_of_mem _ (List.mem_cons_self _ _)⟩

theorem change_sort_resets_and_fallback_witness :
    (change_sort_method 0 "bogus" initManager).1.sort_method = "hot"
    ∧ "Setting sort method to: hot" ∈ (change_sort_method 0 "bogus" initManager).2.2
    ∧ (change_sort_method 0 "bogus" initManager).1.current_page = 1 :=
  ⟨((change_sort_resets_and_fallback 0 "bogus" initManager).2.2.2.2.2 (by decide)).1,
    ((change_sort_resets_and_fallback 0 "bogus" initManager).2.2.2.2.2 (by decide)).2,
    (change_sort_resets_and_fallback 0 "bogus" initManager).1⟩

/-- C10: the controller lowercases the incoming method string before
validation, so the effective method is `pyLower m` whenever that lowercase
form is one of "hot", "new", "rising" (the UI labels "Hot", "New", "Rising"
select their methods), and only strings whose lowercase form is outside these
three fall back to "hot". -/
theorem lowercase_before_validation (now : ℚ) (m : String) (s : PaperManager) :
    (pyLower m ∈ (["hot", "new", "rising"] : List String) →
      (change_sort_method now m s).1.sort_method = pyLower m)
    ∧ (pyLower m ∉ (["hot", "new", "rising"] : List String) →
      (change_sort_method now m s).1.sort_method = "hot") := by
  rw [change_sort_method_eq now m s _ rfl]
  constructor
  · intro hmem
    exact if_pos hmem
  · intro hno
    exact if_neg hno

theorem lowercase_before_validation_witness :
    (change_sort_method 0 "Hot" initManager).1.sort_method = "hot"
    ∧ (change_sort_method 0 "New" initManager).1.sort_method = "new"
    ∧ (change_sort_method 0 "Rising" initManager).1.sort_method = "rising" :=
  ⟨(lowercase_before_validation 0 "Hot" initManager).1 (by decide),
    (lowercase_before_validation 0 "New" initManager).1 (by decide),
    (lowercase_before_validation 0 "Rising" initManager).1 (by decide)⟩

/-! ### Empty fetch results -/

/-- C5 counterexample: an empty but successful fetch makes `fetch_papers`
return `False` (line 62–64), so `initialize_app` renders the fetch-failure
document, which is not the "No papers available" placeholder the claim
names. -/
theorem empty_fetch_failure_counterexample :
    (initialize_app 0 (some []) initManager).2 = fetchFailedHtml
    ∧ fetchFailedHtml ≠ noPapersHtml := by
  exact ⟨rfl, by decide⟩

/-- C5 amended: an empty successful fetch is treated exactly like a fetch
failure: `fetch_papers` returns `False` without touching the state, and
`initialize_app` renders the failure document; `total_pages` and
`current_page` keep their initial value 1. -/
theorem empty_fetch_is_failure (now : ℚ) (s : PaperManager) :
    fetch_papers now (some []) s = (s, false)
    ∧ initialize_app now (some []) s = (s, fetchFailedHtml)
    ∧ initManager.total_pages = 1 ∧ initManager.current_page = 1 :=
  ⟨rfl, rfl, rfl, rfl⟩

/-! ### The scoring guard fails for far-future timestamps -/

/-- A paper whose parsed timestamp lies three hours in the future of
`now = 0`. -/
def paperFuture : Paper :=
  ⟨some "F", some "f", [], some 5, none, some "2999-01-01T00:00:00Z", some 3⟩

/-- C7 supporting fact: for a paper more than two hours in the future, the
base `time_diff_hours + 2` of the exponent `1.5` in `calculate_score` is
negative (here `-1`).  Real-number exponentiation in this model is total, but
Python evaluates `(-1.0) ** 1.5` to a complex number, and `sorted` then
raises `TypeError` when it compares complex keys, aborting the whole hot
sort — contradicting the claim that extreme items only degrade per-item. -/
theorem future_paper_negative_base :
    (0 - effectivePublishedTime 0 paperFuture) + 2 = -1
    ∧ (0 - effectivePublishedTime 0 paperFuture) + 2 < 0 := by
  have h3 : effectivePublishedTime 0 paperFuture = 3 := rfl
  rw [h3]
  norm_num

end DailyPapers
